import Mathlib

/-!
Shallow embedding of the sublime-jekyll plugin (`jekyll.py`) and proofs
about its two pieces of logic (title normalization, frontmatter
templating) and its command/error-handling flow.

Python strings are modelled as Lean `String`; `re` character classes are
modelled over ASCII (`\w` = alphanumeric or underscore, `\s` = ASCII
whitespace), and `str.lower` by `Char.toLower`, which performs the same
ASCII case mapping.
-/

namespace Jekyll

/-- Python values as they occur in the plugin's settings: `None`,
booleans and strings. -/
inductive PyVal where
  | none
  | bool (b : Bool)
  | str (s : String)
deriving DecidableEq, Repr, BEq

/-- Python `str()` of a settings value, as applied by `str.format`. -/
def pyStr : PyVal → String
  | PyVal.none => "None"
  | PyVal.bool true => "True"
  | PyVal.bool false => "False"
  | PyVal.str s => s

/-- Python truthiness of a settings value (`if not p` in the source). -/
def pyTruthy : PyVal → Bool
  | PyVal.none => false
  | PyVal.bool b => b
  | PyVal.str s => !(s == "")

/-- Python regex `\w` over ASCII: alphanumeric or underscore. -/
def isWordChar (c : Char) : Bool := c.isAlphanum || c = '_'

/-- Python regex `\s` over ASCII: space, tab, newline, carriage return,
vertical tab, form feed. -/
def pyIsSpace (c : Char) : Bool :=
  c = ' ' || c = '\t' || c = '\n' || c = '\r' || c = '\x0b' || c = '\x0c'

/-- The character class kept by `re.sub('[^\w\s]', '', t)`: word
characters and whitespace survive, everything else is removed. -/
def keepChar (c : Char) : Bool := isWordChar c || pyIsSpace c

/-- The substitution `re.sub(' |_', '-', t_str)` acts on each character:
a space or underscore becomes a hyphen, all others are unchanged. -/
def replChar (c : Char) : Char := if c = ' ' || c = '_' then '-' else c

/-- `title.lower()` (ASCII case mapping). -/
def pyLower (s : String) : String := String.mk (s.data.map Char.toLower)

/-- `re.sub('[^\w\s]', '', t)`. -/
def reSubStripNonWordSpace (s : String) : String := String.mk (s.data.filter keepChar)

/-- `re.sub(' |_', '-', t_str)`. -/
def reSubSpaceUnderscore (s : String) : String := String.mk (s.data.map replChar)

/-- A calendar date, as consumed by `datetime.today()`/`strftime`. -/
structure Date where
  year : Nat
  month : Nat
  day : Nat
deriving DecidableEq, Repr

/-- Two zero-padded decimal digits (`%m`, `%d` for values below 100). -/
def twoDigits (n : Nat) : String :=
  String.mk [Nat.digitChar (n / 10 % 10), Nat.digitChar (n % 10)]

/-- Four zero-padded decimal digits (`%Y` for years below 10000). -/
def fourDigits (n : Nat) : String :=
  String.mk [Nat.digitChar (n / 1000 % 10), Nat.digitChar (n / 100 % 10),
    Nat.digitChar (n / 10 % 10), Nat.digitChar (n % 10)]

/-- `d.strftime('%Y-%m-%d')`, the `POST_DATE_FORMAT` of the plugin. -/
def strftimeYMD (d : Date) : String :=
  fourDigits d.year ++ "-" ++ twoDigits d.month ++ "-" ++ twoDigits d.day

/-- `JekyllNewPostBase.clean_title_input`, with the call to
`datetime.today()` made an explicit `Date` parameter. -/
def clean_title_input (d : Date) (title : String) : String :=
  let t := pyLower title
  let t_str := reSubStripNonWordSpace t
  let t_str2 := reSubSpaceUnderscore t_str
  let d_str := strftimeYMD d
  d_str ++ "-" ++ t_str2

/-- The slug part of `clean_title_input` (everything after the date
prefix): strip, then replace, applied to the lowered title. -/
def slugOf (t : String) : String :=
  reSubSpaceUnderscore (reSubStripNonWordSpace (pyLower t))

theorem clean_title_eq (d : Date) (t : String) :
    clean_title_input d t = strftimeYMD d ++ "-" ++ slugOf t := rfl

/-! ### Character-level lemmas about the ASCII case mapping -/

theorem toNat_ofNat_of_valid {n : Nat} (h : n.isValidChar) : (Char.ofNat n).toNat = n := by
  unfold Char.ofNat
  rw [dif_pos h]
  rfl

theorem char_toNat_inj {a b : Char} (h : a.toNat = b.toNat) : a = b :=
  Char.ext (UInt32.ext h)

theorem toLower_toNat (c : Char) :
    (Char.toLower c).toNat =
      if 65 ≤ c.toNat ∧ c.toNat ≤ 90 then c.toNat + 32 else c.toNat := by
  show (if c.toNat ≥ 65 ∧ c.toNat ≤ 90 then Char.ofNat (c.toNat + 32) else c).toNat = _
  by_cases h : 65 ≤ c.toNat ∧ c.toNat ≤ 90
  · rw [if_pos h, if_pos h, toNat_ofNat_of_valid (Or.inl (by omega))]
  · rw [if_neg h, if_neg h]

theorem toLower_eq_of_not_upper {c : Char} (h : ¬(65 ≤ c.toNat ∧ c.toNat ≤ 90)) :
    Char.toLower c = c := by
  show (if c.toNat ≥ 65 ∧ c.toNat ≤ 90 then Char.ofNat (c.toNat + 32) else c) = c
  rw [if_neg h]

theorem toLower_toLower (c : Char) :
    Char.toLower (Char.toLower c) = Char.toLower c := by
  apply toLower_eq_of_not_upper
  rw [toLower_toNat]
  by_cases h : 65 ≤ c.toNat ∧ c.toNat ≤ 90
  · rw [if_pos h]
    omega
  · rw [if_neg h]
    exact h

theorem toLower_ne_of_ne {c x : Char} (hx : ¬(97 ≤ x.toNat ∧ x.toNat ≤ 122))
    (h : c ≠ x) : Char.toLower c ≠ x := by
  intro he
  have ht := toLower_toNat c
  rw [he] at ht
  by_cases hc : 65 ≤ c.toNat ∧ c.toNat ≤ 90
  · rw [if_pos hc] at ht
    exact hx (by omega)
  · rw [if_neg hc] at ht
    exact h (char_toNat_inj ht.symm)

theorem toLower_ne_space {c : Char} (h : c ≠ ' ') : Char.toLower c ≠ ' ' :=
  toLower_ne_of_ne (by decide) h

theorem toLower_ne_underscore {c : Char} (h : c ≠ '_') : Char.toLower c ≠ '_' :=
  toLower_ne_of_ne (by decide) h

/-! ### Spec-side normalizer definitions (from the spec's words, for
refinement comparison with `clean_title_input`) -/

/-- Spec wording of the transformation with each space/underscore
replaced individually: lowercase; drop characters that are neither word
characters nor whitespace; turn each space or underscore into one
hyphen. -/
def specSlugEach : List Char → List Char
  | [] => []
  | c :: cs =>
    let lc := Char.toLower c
    if keepChar lc then
      (if lc = ' ' || lc = '_' then '-' else lc) :: specSlugEach cs
    else
      specSlugEach cs

/-- Collapse each maximal run of spaces/underscores into a single
hyphen (the claim's wording); the boolean records whether the previous
kept character belonged to such a run. -/
def collapseRuns : List Char → Bool → List Char
  | [], _ => []
  | c :: cs, inRun =>
    if c = ' ' || c = '_' then
      (if inRun then [] else ['-']) ++ collapseRuns cs true
    else
      c :: collapseRuns cs false

/-- The normalizer as the claim words it: date prefix, then the lowered,
stripped title with each run of spaces/underscores collapsed to a single
hyphen. -/
def specNormalizeRuns (d : Date) (t : String) : String :=
  strftimeYMD d ++ "-" ++
    String.mk (collapseRuns ((t.data.map Char.toLower).filter keepChar) false)

/-! ### Settings and the frontmatter builder -/

/-- Resolved plugin configuration: a flat association list from setting
name to value; a missing key reads as Python `None`
(`sublime.load_settings(...).get(key)`). -/
def lookupSetting (s : List (String × PyVal)) (k : String) : PyVal :=
  match s.find? (fun p => p.1 == k) with
  | some p => p.2
  | none => PyVal.none

/-- `JekyllNewPostBase.create_post_frontmatter`: reads the four default
settings and interpolates them (via Python `str()`) together with the
raw title into the fixed template. -/
def create_post_frontmatter (title : String) (s : List (String × PyVal)) : String :=
  let POST_LAYOUT := pyStr (lookupSetting s "default_post_layout")
  let POST_TITLE := title
  let POST_CATEGORIES := pyStr (lookupSetting s "default_post_categories")
  let POST_TAGS := pyStr (lookupSetting s "default_post_tags")
  let POST_PUBLISHED := pyStr (lookupSetting s "default_post_published")
  "---\nlayout: " ++ POST_LAYOUT ++ "\ntitle: " ++ POST_TITLE ++
    "\npublished: " ++ POST_PUBLISHED ++ "\ncategories: " ++ POST_CATEGORIES ++
    "\ntags: " ++ POST_TAGS ++ "\n---\n\n"

/-- Number of newline characters of a string (= number of
newline-terminated lines). -/
def newlineCount (s : String) : Nat := (s.data.filter (fun c => c = '\n')).length

/-! ### The command flow: world state, exceptions, `catch_errors` -/

/-- Observable editor/filesystem state threaded through a command:
resolved settings, existing filesystem paths (`os.path.lexists`),
file contents written by the plugin, error messages shown
(`sublime.error_message`), files opened in the editor, and the number of
tracebacks logged (`traceback.print_exc`). -/
structure World where
  settings : List (String × PyVal)
  files : List String
  contents : List (String × String)
  errors : List String
  opened : List String
  logged : Nat
deriving DecidableEq, Repr

/-- The exceptions that can arise in the modelled flow:
`MissingPathException` and the `TypeError` raised by
`os.path.join(None, ...)`. -/
inductive PyExc where
  | missingPath
  | typeError
deriving DecidableEq, Repr

def missingPathMsg : String :=
  "Jekyll: Unable to find path information in Jekyll.sublime-settings."

def unknownErrorMsg : String := "Jekyll: unknown error (please, report a bug!)"

def fileExistsMsg (p : String) : String :=
  "Jekyll: File already exists at \x22" ++ p ++ "\x22"

def userSettingsPath : String := "Packages/User/Jekyll.sublime-settings"

/-- The `except MissingPathException` branch of `catch_errors`: show the
message, seed the user settings file from the bundled default when it
does not exist, and open it for editing. -/
def repairFlow (w : World) : World :=
  let w1 : World := { w with errors := w.errors ++ [missingPathMsg] }
  let w2 : World :=
    if userSettingsPath ∈ w1.files then w1
    else { w1 with files := w1.files ++ [userSettingsPath] }
  { w2 with opened := w2.opened ++ [userSettingsPath] }

/-- The bare `except` branch of `catch_errors`: log the traceback and
show the generic message. -/
def logUnknown (w : World) : World :=
  { w with logged := w.logged + 1, errors := w.errors ++ [unknownErrorMsg] }

/-- The `catch_errors` decorator: a caught exception makes the wrapped
function return Python `None`. -/
def catch_errors (f : World → Except PyExc PyVal × World) :
    World → Except PyExc PyVal × World := fun w =>
  match f w with
  | (Except.ok v, w') => (Except.ok v, w')
  | (Except.error PyExc.missingPath, w') => (Except.ok PyVal.none, repairFlow w')
  | (Except.error PyExc.typeError, w') => (Except.ok PyVal.none, logUnknown w')

/-- `JekyllNewPostBase.posts_path_string` / `drafts_path_string`
(identical logic, different key): raise `MissingPathException` on a
falsy or empty setting, else return it; wrapped in `catch_errors`. -/
def path_string (key : String) : World → Except PyExc PyVal × World :=
  catch_errors (fun w =>
    let p := lookupSetting w.settings key
    if pyTruthy p then (Except.ok p, w) else (Except.error PyExc.missingPath, w))

def posts_path_string : World → Except PyExc PyVal × World := path_string "posts_path"

def drafts_path_string : World → Except PyExc PyVal × World := path_string "drafts_path"

/-- `os.path.join(post_dir, clean_title)`: joining onto a non-string
(`None` returned by a failed path lookup, or a non-str setting) raises
`TypeError`. -/
def os_path_join : PyVal → String → Except PyExc String
  | PyVal.str d, f => Except.ok (d ++ "/" ++ f)
  | _, _ => Except.error PyExc.typeError

/-- `create_and_open_file` (via `create_file` and the
`jekyll_post_frontmatter` text command): create the file, insert the
frontmatter, save, and leave it open. -/
def create_and_open_file (path fm : String) (w : World) : Except PyExc Unit × World :=
  (Except.ok (), { w with
    files := w.files ++ [path],
    contents := w.contents ++ [(path, fm)],
    opened := w.opened ++ [path] })

/-- `JekyllNewPostBase.title_input`, the input-panel callback driving
post creation; `isDraft` is the `IS_DRAFT` class attribute and `d` the
current date. -/
def title_input (isDraft : Bool) (d : Date) (title : String) (w : World) :
    Except PyExc Unit × World :=
  match (if isDraft then drafts_path_string w else posts_path_string w) with
  | (Except.error e, w1) => (Except.error e, w1)
  | (Except.ok post_dir, w1) =>
    let syn := lookupSetting w1.settings "default_post_syntax"
    let file_ext := if syn == PyVal.str "Textile" then ".textile" else ".md"
    let clean_title := clean_title_input d title ++ file_ext
    match os_path_join post_dir clean_title with
    | Except.error e => (Except.error e, w1)
    | Except.ok full_path =>
      if full_path ∈ w1.files then
        (Except.ok (), { w1 with errors := w1.errors ++ [fileExistsMsg full_path] })
      else
        create_and_open_file full_path (create_post_frontmatter title w1.settings) w1

/-! ### Helper lemmas about the slug pipeline -/

theorem replChar_eq_self {c : Char} (h1 : c ≠ ' ') (h2 : c ≠ '_') : replChar c = c := by
  unfold replChar
  rw [if_neg]
  simp [h1, h2]

theorem replChar_ne_space_underscore (c : Char) : replChar c ≠ ' ' ∧ replChar c ≠ '_' := by
  unfold replChar
  by_cases h : c = ' ' || c = '_'
  · rw [if_pos h]
    exact ⟨by decide, by decide⟩
  · rw [if_neg h]
    simp only [Bool.or_eq_true, decide_eq_true_eq, not_or] at h
    exact h

theorem slug_spec_each (l : List Char) :
    ((l.map Char.toLower).filter keepChar).map replChar = specSlugEach l := by
  induction l with
  | nil => rfl
  | cons c cs ih =>
    rw [List.map_cons, List.filter_cons]
    by_cases h : keepChar (Char.toLower c)
    · rw [if_pos h, List.map_cons, ih]
      show replChar (Char.toLower c) :: specSlugEach cs = specSlugEach (c :: cs)
      simp only [specSlugEach, replChar]
      rw [if_pos h]
    · rw [if_neg h, ih]
      show specSlugEach cs = specSlugEach (c :: cs)
      conv_rhs => simp only [specSlugEach]
      rw [if_neg h]

theorem slugOf_data (t : String) :
    (slugOf t).data = ((t.data.map Char.toLower).filter keepChar).map replChar := rfl

theorem slugOf_idem {t : String}
    (h : ∀ c ∈ t.data, c ≠ ' ' ∧ c ≠ '_') : slugOf (slugOf t) = slugOf t := by
  have hX : ∀ c ∈ (t.data.map Char.toLower).filter keepChar, c ≠ ' ' ∧ c ≠ '_' := by
    intro c hc
    have hm := List.mem_of_mem_filter hc
    obtain ⟨c0, hc0, rfl⟩ := List.mem_map.mp hm
    exact ⟨toLower_ne_space (h c0 hc0).1, toLower_ne_underscore (h c0 hc0).2⟩
  have hrepl : ((t.data.map Char.toLower).filter keepChar).map replChar =
      (t.data.map Char.toLower).filter keepChar := by
    rw [List.map_congr_left (fun c hc => replChar_eq_self (hX c hc).1 (hX c hc).2)]
    exact List.map_id _
  have hslug : (slugOf t).data = (t.data.map Char.toLower).filter keepChar := by
    rw [slugOf_data, hrepl]
  have hlow : (slugOf t).data.map Char.toLower = (slugOf t).data := by
    rw [hslug]
    have : ∀ c ∈ (t.data.map Char.toLower).filter keepChar, Char.toLower c = c := by
      intro c hc
      obtain ⟨c0, _, rfl⟩ := List.mem_map.mp (List.mem_of_mem_filter hc)
      exact toLower_toLower c0
    rw [List.map_congr_left this]
    exact List.map_id _
  have hfilt : (slugOf t).data.filter keepChar = (slugOf t).data := by
    apply List.filter_eq_self.mpr
    intro c hc
    rw [hslug] at hc
    exact List.of_mem_filter hc
  apply String.ext
  rw [slugOf_data, hlow, hfilt, hslug]
  exact hrepl

theorem string_append_left_cancel {a b c : String} (h : a ++ b = a ++ c) : b = c := by
  have hd := congrArg String.data h
  simp only [String.data_append] at hd
  exact String.ext (List.append_cancel_left hd)

/-! ### Claim theorems -/

/-- C1, as stated, is false: the second substitution replaces each
space/underscore individually, so a run of two spaces yields two
consecutive hyphens, while the claim's run-collapsing transformation
yields one. -/
theorem C1_counterexample :
    clean_title_input ⟨2024, 1, 5⟩ "a  b" = "2024-01-05-a--b" ∧
    specNormalizeRuns ⟨2024, 1, 5⟩ "a  b" = "2024-01-05-a-b" ∧
    clean_title_input ⟨2024, 1, 5⟩ "a  b" ≠ specNormalizeRuns ⟨2024, 1, 5⟩ "a  b" :=
  ⟨by decide, by decide, by decide⟩

/-- C1 (amended): for every title and date, the normalizer returns the
date formatted as YYYY-MM-DD, a hyphen, then the title transformed by
lowercasing, removing every character that is neither a word character
nor whitespace, and replacing each individual space or underscore with a
hyphen (a run of n spaces/underscores yields n hyphens). -/
theorem C1_normalizer_characterization (d : Date) (t : String) :
    clean_title_input d t = strftimeYMD d ++ "-" ++ String.mk (specSlugEach t.data) := by
  rw [clean_title_eq]
  show _ ++ slugOf t = _ ++ String.mk (specSlugEach t.data)
  congr 1
  apply String.ext
  rw [slugOf_data]
  exact slug_spec_each t.data

/-- C2, as stated, is false: normalizing "a b" yields the slug "a-b",
but renormalizing that remainder removes the hyphen (it is neither a
word character nor whitespace), giving a different slug. -/
theorem C2_counterexample :
    clean_title_input ⟨2024, 1, 5⟩ "a b" = strftimeYMD ⟨2024, 1, 5⟩ ++ "-" ++ "a-b" ∧
    clean_title_input ⟨2024, 1, 5⟩ "a-b" = "2024-01-05-ab" ∧
    clean_title_input ⟨2024, 1, 5⟩ "a-b" ≠ clean_title_input ⟨2024, 1, 5⟩ "a b" :=
  ⟨by decide, by decide, by decide⟩

/-- C2 (amended): for titles containing no space and no underscore,
normalization on a fixed date is idempotent modulo the date prefix:
renormalizing the remainder after the date prefix yields the same
result. (In general it is not: hyphens introduced by the replacement
step are stripped by the second pass.) -/
theorem C2_idempotent_on_clean_titles (d : Date) (t rest : String)
    (h : ∀ c ∈ t.data, c ≠ ' ' ∧ c ≠ '_')
    (hrest : clean_title_input d t = strftimeYMD d ++ "-" ++ rest) :
    clean_title_input d rest = clean_title_input d t := by
  rw [clean_title_eq] at hrest
  have hr : rest = slugOf t := (string_append_left_cancel hrest).symm
  rw [clean_title_eq, clean_title_eq, hr, slugOf_idem h]

theorem C2_witness :
    clean_title_input ⟨2024, 1, 5⟩ "ab" = clean_title_input ⟨2024, 1, 5⟩ "ab!" :=
  C2_idempotent_on_clean_titles ⟨2024, 1, 5⟩ "ab!" "ab" (by decide) (by decide)

def examplePostSettings : List (String × PyVal) :=
  [("default_post_layout", PyVal.str "post"),
   ("default_post_categories", PyVal.str "[blog]"),
   ("default_post_tags", PyVal.str "[]"),
   ("default_post_published", PyVal.bool true)]

/-- C3, as stated, is false only in its line count: the returned block
consists of seven newline-terminated lines (five field lines between two
`---` delimiter lines) followed by a blank line — eight newlines in all —
not a 6-line block followed by a blank line (which would have seven). -/
theorem C3_counterexample :
    create_post_frontmatter "My Post" examplePostSettings =
      "---\nlayout: post\ntitle: My Post\npublished: True\ncategories: [blog]\ntags: []\n---\n\n" ∧
    newlineCount (create_post_frontmatter "My Post" examplePostSettings) = 8 ∧
    (8 : Nat) ≠ 7 :=
  ⟨by decide, by decide, by decide⟩

/-- C3 (amended): for title "My Post", layout "post", categories
"[blog]", tags "[]", published true, the frontmatter builder returns
exactly the fixed block with those values substituted — field order
layout, title, published, categories, tags between `---` delimiter
lines (seven newline-terminated lines), followed by a blank line. -/
theorem C3_frontmatter_exact :
    create_post_frontmatter "My Post" examplePostSettings =
      "---\nlayout: post\ntitle: My Post\npublished: True\ncategories: [blog]\ntags: []\n---\n\n" :=
  by decide

/-- C7: normalization strips punctuation while keeping word characters
(every character of the slug is a word character, whitespace other than
space, or a hyphen), and "Hello, World!" on 2024-01-05 yields exactly
"2024-01-05-hello-world". -/
theorem C7_strips_punctuation (t : String) :
    clean_title_input ⟨2024, 1, 5⟩ "Hello, World!" = "2024-01-05-hello-world" ∧
    (∀ c ∈ (slugOf t).data, isWordChar c = true ∨ pyIsSpace c = true ∨ c = '-') := by
  refine ⟨by decide, ?_⟩
  intro c hc
  rw [slugOf_data] at hc
  obtain ⟨c1, hc1, rfl⟩ := List.mem_map.mp hc
  have hk := List.of_mem_filter hc1
  by_cases hsp : (c1 = ' ' || c1 = '_') = true
  · right; right
    unfold replChar
    rw [if_pos hsp]
  · rw [replChar_eq_self]
    · unfold keepChar at hk
      rcases Bool.or_eq_true_iff.mp hk with h1 | h2
      · exact Or.inl h1
      · exact Or.inr (Or.inl h2)
    all_goals
      simp only [Bool.or_eq_true, decide_eq_true_eq, not_or] at hsp
    · exact hsp.1
    · exact hsp.2

theorem C7_witness :
    isWordChar 'x' = true ∨ pyIsSpace 'x' = true ∨ 'x' = '-' :=
  (C7_strips_punctuation "x!").2 'x' (by decide)

/-- C8: the frontmatter builder performs no validation — every field
value is interpolated verbatim into the fixed template; a missing
configuration key reads as Python `None` and renders as the literal
text "None", so with an empty configuration every configured field reads
"None". -/
theorem C8_no_validation_verbatim :
    (∀ (title : String) (s : List (String × PyVal)),
      create_post_frontmatter title s =
        "---\nlayout: " ++ pyStr (lookupSetting s "default_post_layout") ++
        "\ntitle: " ++ title ++
        "\npublished: " ++ pyStr (lookupSetting s "default_post_published") ++
        "\ncategories: " ++ pyStr (lookupSetting s "default_post_categories") ++
        "\ntags: " ++ pyStr (lookupSetting s "default_post_tags") ++ "\n---\n\n") ∧
    (∀ k : String, pyStr (lookupSetting [] k) = "None") ∧
    create_post_frontmatter "T" [] =
      "---\nlayout: None\ntitle: T\npublished: None\ncategories: None\ntags: None\n---\n\n" :=
  ⟨fun _ _ => rfl, fun _ => rfl, by decide⟩

/-- C9: the title normalizer is total — for every date and every input
string it returns the formatted date, a hyphen, and a slug whose
characters all come from the kept classes (word characters, whitespace)
or are hyphens; the empty title yields the degenerate slug consisting of
the date prefix alone. -/
theorem C9_total_normalizer (d : Date) (t : String) :
    clean_title_input d t = strftimeYMD d ++ "-" ++ slugOf t ∧
    (∀ c ∈ (slugOf t).data, keepChar c = true ∨ c = '-') ∧
    clean_title_input d "" = strftimeYMD d ++ "-" := by
  refine ⟨clean_title_eq d t, ?_, ?_⟩
  · intro c hc
    rw [slugOf_data] at hc
    obtain ⟨c1, hc1, rfl⟩ := List.mem_map.mp hc
    by_cases hsp : (c1 = ' ' || c1 = '_') = true
    · right
      unfold replChar
      rw [if_pos hsp]
    · left
      simp only [Bool.or_eq_true, decide_eq_true_eq, not_or] at hsp
      rw [replChar_eq_self hsp.1 hsp.2]
      exact List.of_mem_filter hc1
  · rw [clean_title_eq]
    show _ ++ "" = _
    exact String.append_empty _

theorem C9_witness : keepChar 'x' = true ∨ 'x' = '-' :=
  (C9_total_normalizer ⟨2024, 1, 5⟩ "x!").2.1 'x' (by decide)

/-- C10: the slug after the date prefix contains no space and no
underscore (each was replaced by a hyphen), the output always begins
with the formatted date followed by a hyphen, and the empty title yields
exactly the date string with a single trailing hyphen. -/
theorem C10_no_space_no_underscore (d : Date) (t : String) :
    clean_title_input d t = strftimeYMD d ++ "-" ++ slugOf t ∧
    (∀ c ∈ (slugOf t).data, c ≠ ' ' ∧ c ≠ '_') ∧
    (strftimeYMD d ++ "-").data <+: (clean_title_input d t).data ∧
    clean_title_input d "" = strftimeYMD d ++ "-" := by
  refine ⟨clean_title_eq d t, ?_, ?_, ?_⟩
  · intro c hc
    rw [slugOf_data] at hc
    obtain ⟨c1, _, rfl⟩ := List.mem_map.mp hc
    exact replChar_ne_space_underscore c1
  · refine ⟨(slugOf t).data, ?_⟩
    rw [clean_title_eq]
    simp [String.data_append]
  · rw [clean_title_eq]
    show _ ++ "" = _
    exact String.append_empty _

theorem C10_witness : ('-' : Char) ≠ ' ' ∧ ('-' : Char) ≠ '_' :=
  (C10_no_space_no_underscore ⟨2024, 1, 5⟩ "a b").2.1 '-' (by decide)

theorem path_string_if (isDraft : Bool) (w : World) :
    (if isDraft then drafts_path_string w else posts_path_string w) =
      path_string (if isDraft then "drafts_path" else "posts_path") w := by
  cases isDraft <;> rfl

theorem path_string_ok {w : World} {key p : String}
    (hp : lookupSetting w.settings key = PyVal.str p) (hne : p ≠ "") :
    path_string key w = (Except.ok (PyVal.str p), w) := by
  unfold path_string catch_errors
  show (match (if pyTruthy (lookupSetting w.settings key) = true then
      (Except.ok (lookupSetting w.settings key), w)
    else (Except.error PyExc.missingPath, w)) with
    | (Except.ok v, w') => (Except.ok v, w')
    | (Except.error PyExc.missingPath, w') => (Except.ok PyVal.none, repairFlow w')
    | (Except.error PyExc.typeError, w') => (Except.ok PyVal.none, logUnknown w')) = _
  rw [hp]
  rw [if_pos (by simp [pyTruthy, hne])]

theorem path_string_missing {w : World} {key : String}
    (hmiss : pyTruthy (lookupSetting w.settings key) = false) :
    path_string key w = (Except.ok PyVal.none, repairFlow w) := by
  unfold path_string catch_errors
  show (match (if pyTruthy (lookupSetting w.settings key) = true then
      (Except.ok (lookupSetting w.settings key), w)
    else (Except.error PyExc.missingPath, w)) with
    | (Except.ok v, w') => (Except.ok v, w')
    | (Except.error PyExc.missingPath, w') => (Except.ok PyVal.none, repairFlow w')
    | (Except.error PyExc.typeError, w') => (Except.ok PyVal.none, logUnknown w')) = _
  rw [hmiss]
  rw [if_neg (by decide)]

/-- C4: when the computed destination path already exists, the creation
command only reports the error: it returns without raising, the error
message is appended, and the files, contents, opened list, settings and
log counter are all left unchanged — no frontmatter is written and no
file is created or truncated. -/
theorem C4_existing_destination_aborts (w : World) (d : Date) (isDraft : Bool)
    (title pdir file_ext : String)
    (hp : lookupSetting w.settings (if isDraft then "drafts_path" else "posts_path") =
      PyVal.str pdir)
    (hne : pdir ≠ "")
    (hext : file_ext = (if lookupSetting w.settings "default_post_syntax" ==
      PyVal.str "Textile" then ".textile" else ".md"))
    (hex : pdir ++ "/" ++ (clean_title_input d title ++ file_ext) ∈ w.files) :
    title_input isDraft d title w =
      (Except.ok (), { w with errors := w.errors ++
        [fileExistsMsg (pdir ++ "/" ++ (clean_title_input d title ++ file_ext))] }) := by
  unfold title_input
  rw [path_string_if, path_string_ok hp hne]
  show (match os_path_join (PyVal.str pdir) (clean_title_input d title ++
      (if lookupSetting w.settings "default_post_syntax" == PyVal.str "Textile"
        then ".textile" else ".md")) with
    | Except.error e => (Except.error e, w)
    | Except.ok full_path =>
      if full_path ∈ w.files then
        (Except.ok (), { w with errors := w.errors ++ [fileExistsMsg full_path] })
      else
        create_and_open_file full_path (create_post_frontmatter title w.settings) w) = _
  rw [← hext]
  show (if pdir ++ "/" ++ (clean_title_input d title ++ file_ext) ∈ w.files then
      (Except.ok (), { w with errors := w.errors ++
        [fileExistsMsg (pdir ++ "/" ++ (clean_title_input d title ++ file_ext))] })
    else create_and_open_file (pdir ++ "/" ++ (clean_title_input d title ++ file_ext))
      (create_post_frontmatter title w.settings) w) = _
  rw [if_pos hex]

theorem C4_witness :
    title_input false ⟨2024, 1, 5⟩ "t"
      ⟨[("posts_path", PyVal.str "_posts")], ["_posts/2024-01-05-t.md"], [], [], [], 0⟩ =
    (Except.ok (), ⟨[("posts_path", PyVal.str "_posts")], ["_posts/2024-01-05-t.md"], [],
      [fileExistsMsg "_posts/2024-01-05-t.md"], [], 0⟩) :=
  C4_existing_destination_aborts
    ⟨[("posts_path", PyVal.str "_posts")], ["_posts/2024-01-05-t.md"], [], [], [], 0⟩
    ⟨2024, 1, 5⟩ false "t" "_posts" ".md" (by decide) (by decide) (by decide) (by decide)

/-- C5: with the required path setting absent (or falsy/empty), no post
file is created and the settings-repair flow runs: the user-facing
message is shown, the user settings file is opened, and it is seeded
(created) exactly when it did not already exist. The join of `None`
with the filename then raises a TypeError, so the command never reaches
frontmatter generation or file creation. -/
theorem C5_missing_path_runs_repair (w : World) (d : Date) (isDraft : Bool) (title : String)
    (hmiss : pyTruthy (lookupSetting w.settings
      (if isDraft then "drafts_path" else "posts_path")) = false) :
    title_input isDraft d title w = (Except.error PyExc.typeError, repairFlow w) ∧
    (repairFlow w).contents = w.contents ∧
    (repairFlow w).errors = w.errors ++ [missingPathMsg] ∧
    (repairFlow w).opened = w.opened ++ [userSettingsPath] ∧
    (repairFlow w).files =
      (if userSettingsPath ∈ w.files then w.files else w.files ++ [userSettingsPath]) := by
  refine ⟨?_, ?_, ?_, ?_, ?_⟩
  · unfold title_input
    rw [path_string_if, path_string_missing hmiss]
    rfl
  all_goals
    unfold repairFlow
    by_cases hmem : userSettingsPath ∈ w.files <;> simp [hmem]

theorem C5_witness :
    title_input true ⟨2024, 1, 5⟩ "t" ⟨[], [], [], [], [], 0⟩ =
      (Except.error PyExc.typeError, repairFlow ⟨[], [], [], [], [], 0⟩) :=
  (C5_missing_path_runs_repair ⟨[], [], [], [], [], 0⟩ ⟨2024, 1, 5⟩ true "t" (by decide)).1

/-- C6, as stated, is false: `catch_errors` wraps only the two path
helpers, not the command bodies. With no `posts_path` configured, the
repair flow runs inside the helper, the helper returns `None`, and the
subsequent `os.path.join(None, ...)` TypeError escapes the command
uncaught — the only message shown is the missing-path one, not the
generic unknown-error report. -/
theorem C6_counterexample :
    (title_input false ⟨2024, 1, 5⟩ "x" ⟨[], [], [], [], [], 0⟩).1 =
      Except.error PyExc.typeError ∧
    (title_input false ⟨2024, 1, 5⟩ "x" ⟨[], [], [], [], [], 0⟩).2.errors =
      [missingPathMsg] :=
  ⟨rfl, by decide⟩

/-- C6 (amended): exceptions raised inside the functions wrapped by
`catch_errors` (the path helpers) are all caught — `MissingPathException`
triggers the settings-repair flow and every other exception is logged
(traceback count increases) and reported with the generic unknown-error
message, the wrapper returning `None` — but code outside those wrappers
is unprotected, so an exception raised elsewhere in a command body can
escape uncaught. -/
theorem C6_catch_errors_decorator (f : World → Except PyExc PyVal × World) (w w' : World) :
    (f w = (Except.error PyExc.missingPath, w') →
      catch_errors f w = (Except.ok PyVal.none, repairFlow w')) ∧
    (f w = (Except.error PyExc.typeError, w') →
      catch_errors f w = (Except.ok PyVal.none, logUnknown w')) ∧
    (logUnknown w').logged = w'.logged + 1 ∧
    (logUnknown w').errors = w'.errors ++ [unknownErrorMsg] ∧
    (∀ (e : PyExc) (w2 : World), catch_errors f w ≠ (Except.error e, w2)) := by
  refine ⟨fun h => by unfold catch_errors; rw [h], fun h => by unfold catch_errors; rw [h],
    rfl, rfl, ?_⟩
  intro e w2 hcontra
  unfold catch_errors at hcontra
  rcases hfw : f w with ⟨res, wx⟩
  rw [hfw] at hcontra
  cases res with
  | ok v => simp at hcontra
  | error e' => cases e' <;> simp at hcontra

theorem C6_witness :
    catch_errors (fun w => (Except.error PyExc.typeError, w)) ⟨[], [], [], [], [], 0⟩ =
      (Except.ok PyVal.none, logUnknown ⟨[], [], [], [], [], 0⟩) :=
  (C6_catch_errors_decorator (fun w => (Except.error PyExc.typeError, w))
    ⟨[], [], [], [], [], 0⟩ ⟨[], [], [], [], [], 0⟩).2.1 rfl

end Jekyll
